import Mathlib

/-!
Shallow embedding of the reproductive-cycle core of the SweetCow farm
management application: the `buildPregnancyInfo` reproductive-state
calculator, the `buildAlerts` milestone/alert builder (event generation,
confirmation filtering and the past-due projection), the
`getCalfGraduationInfo` maturity calculator, and the confirmation
create/undo overlay, together with the per-tenant default table of the
Community schema (`cattleSettings`).

Modelling conventions:
* A JavaScript `Date` is modelled as `DateTime`: a calendar day number
  (days since 1970-01-01, proleptic Gregorian, UTC) plus a time of day in
  minutes.  JS `Date` comparison compares timestamps, modelled by `ts`.
  `d.setDate(d.getDate() + n)` is day addition preserving the time of day
  (`addDays`).  The helper `toUTCYMD`-based `daysBetween` of the source
  truncates both dates to the calendar day, so it is day-number
  subtraction here.
* Where the source reads calendar components (`getMonth`/`setMonth` for
  the calf-maturity month arithmetic), the date is supplied in civil form
  `CivilDT` (year, month, day-of-month, time of day) and converted with
  `daysFromCivil` (standard civil-from-days arithmetic).  JS
  `setMonth(getMonth() + m)` increments the month field with year carry
  and lets an overflowing day-of-month roll into the following month;
  `daysFromCivil` is linear in the day argument, so `civilPlusMonths`
  reproduces that exactly.
* Mongo ObjectIds are opaque atoms, modelled as `Nat`.  The source joins
  confirmation-key components with `:` into a string; since ids, entity
  types and milestone types contain no `:`, that encoding is injective and
  is modelled as a tuple.
* JS `x || d` on numeric config values treats `0` as absent (`jsOr`);
  `x ?? d` substitutes only for null/undefined (`jsNullish`); `settings?.f`
  is `Option.bind` on an optional settings record.
* All definitions are total Lean functions, so the embedded computations
  return a result on every input (the no-exception guarantee of the spec
  corresponds to totality of the embedding).
-/

namespace SweetCow

/-- Point in time: calendar day number (days since 1970-01-01 UTC) plus
time of day in minutes. -/
structure DateTime where
  day : Int
  tod : Nat
deriving DecidableEq

/-- Timestamp in minutes, the order JS `Date` comparison uses. -/
def ts (t : DateTime) : Int := t.day * 1440 + t.tod

/-- JS `d.setDate(d.getDate() + n)`: add `n` calendar days, keeping the
time of day. -/
def addDays (t : DateTime) (n : Int) : DateTime := { t with day := t.day + n }

/-- Source `daysBetween(a, b)`: both dates are truncated to their UTC
calendar day, so the rounded difference is exact day-number subtraction. -/
def daysBetween (a b : DateTime) : Int := a.day - b.day

/-- Civil calendar date with time of day, for records whose month/day
components the source reads directly. -/
structure CivilDT where
  year : Int
  month : Int
  dayOfMonth : Int
  tod : Nat
deriving DecidableEq

/-- Day number since 1970-01-01 of a proleptic-Gregorian civil date
(standard days-from-civil arithmetic; linear in the day-of-month, so an
out-of-range day rolls into adjacent months exactly as JS `Date` does). -/
def daysFromCivil (y m d : Int) : Int :=
  let y' := if m ≤ 2 then y - 1 else y
  let era := y'.fdiv 400
  let yoe := y' - era * 400
  let mp := (m + 9) % 12
  let doy := (153 * mp + 2).fdiv 5 + d - 1
  let doe := yoe * 365 + yoe.fdiv 4 - yoe.fdiv 100 + doy
  era * 146097 + doe - 719468

/-- Conversion of a civil record date to a `DateTime`. -/
def CivilDT.toDateTime (c : CivilDT) : DateTime :=
  ⟨daysFromCivil c.year c.month c.dayOfMonth, c.tod⟩

/-- JS `t.setMonth(t.getMonth() + months)`: increment the month field with
year carry, keeping day-of-month (overflow rolls over) and time of day. -/
def civilPlusMonths (c : CivilDT) (months : Int) : DateTime :=
  let t := (c.month - 1) + months
  ⟨daysFromCivil (c.year + t.fdiv 12) (t.fmod 12 + 1) c.dayOfMonth, c.tod⟩

/-- JS `v || d` for an optional numeric config value: `0`, `null` and
`undefined` are all falsy, so they fall back to the default. -/
def jsOr (v : Option Nat) (d : Nat) : Nat :=
  match v with
  | some 0 => d
  | some n => n
  | none => d

/-- JS `v ?? d` for an optional numeric config value: only `null` and
`undefined` fall back, `0` is honored. -/
def jsNullish (v : Option Nat) (d : Nat) : Nat := v.getD d

/-- JS `v || d` for an optional string (the empty-string falsy corner of
JS is not exercised by any claim). -/
def jsOrS (v : Option String) (d : String) : String := v.getD d

/-- Tenant timing configuration (the `Settings` document / the Community
schema's `cattleSettings` subdocument); every field optional. -/
structure Settings where
  gestationDays : Option Nat := none
  dryOffAfterSuccessfulInsemDays : Option Nat := none
  changeFeedAfterSuccessfulInsemDays : Option Nat := none
  postpartumInseminationStartDays : Option Nat := none
  inseminationIntervalDays : Option Nat := none
  calvingAlertBeforeDays : Option Nat := none
  dryOffAlertBeforeDays : Option Nat := none
  changeFeedAlertBeforeDays : Option Nat := none
  pregnancyCheckAlertBeforeDays : Option Nat := none
  inseminationAlertBeforeDays : Option Nat := none
  graduationAlertBeforeDays : Option Nat := none
  weaningAlertBeforeDays : Option Nat := none
  femaleWeaningDays : Option Nat := none
  maleWeaningDays : Option Nat := none
  femaleMaturityMonths : Option Nat := none
  maleMaturityMonths : Option Nat := none
deriving DecidableEq

/-- Breeding (insemination) event record. -/
structure Insemination where
  id : Nat
  cowId : Nat
  date : DateTime
  confirmedPregnant : Bool
  failed : Bool
deriving DecidableEq

/-- Cow record (the fields the core reads). -/
structure Cow where
  id : Nat
  cowName : Option String := none
  cowNumber : Option String := none
  lastCalving : Option DateTime := none
deriving DecidableEq

/-- Comparator of the source's descending sort
`(a,b) => new Date(b.date) - new Date(a.date)`: `a` may precede `b` when
`a.date ≥ b.date`. -/
def insemGE (a b : Insemination) : Prop := ts b.date ≤ ts a.date

instance : DecidableRel insemGE := fun _ _ => Int.decLe _ _

/-- The per-cow record list of `buildPregnancyInfo`: filter to the cow's
events, then sort by date descending. -/
def cowRecordsSortedDesc (cow : Cow) (insems : List Insemination) : List Insemination :=
  List.insertionSort insemGE (insems.filter fun r => r.cowId == cow.id)

/-- Result record of `buildPregnancyInfo` (all returned fields). -/
structure ReproState where
  status : String
  conceptionDate : Option DateTime
  estCalving : Option DateTime
  dryOffDate : Option DateTime
  changeFeedDate : Option DateTime
  retryWindowEnd : Option DateTime
  nextInseminationEarliest : Option DateTime
  canAddInseminationNow : Bool
  canRetryNow : Bool
  canConfirmNow : Bool
  gestationDays : Nat
  latest : Option Insemination
  allRecordsCount : Nat
  daysUntilRetryWindowEnd : Option Int
  daysUntilCalving : Option Int
  daysUntilDryOff : Option Int
  daysUntilChangeFeed : Option Int
  daysUntilLatestInsemination : Option Int
  daysUntilLastCalving : Option Int
  daysUntilConception : Option Int
  daysUntilNextInseminationEarliest : Option Int
deriving DecidableEq

/-- Body of the reproductive-state calculator, after the five `const`
config-resolution lines of the source have produced the effective day
counts. -/
def buildPregnancyInfoWith (gestationDays dryOffDays changeFeedDays
    postpartumStartDays retryIntervalDays : Nat) (cow : Cow)
    (insems : List Insemination) (now : DateTime) : ReproState :=
  let allRecords := cowRecordsSortedDesc cow insems
  let latest := allRecords.head?
  let lastCalving := cow.lastCalving
  let r0 : ReproState :=
    { status := "Open", conceptionDate := none, estCalving := none,
      dryOffDate := none, changeFeedDate := none, retryWindowEnd := none,
      nextInseminationEarliest := none, canAddInseminationNow := false,
      canRetryNow := false, canConfirmNow := false,
      gestationDays := gestationDays, latest := latest,
      allRecordsCount := allRecords.length,
      daysUntilRetryWindowEnd := none, daysUntilCalving := none,
      daysUntilDryOff := none, daysUntilChangeFeed := none,
      daysUntilLatestInsemination := none, daysUntilLastCalving := none,
      daysUntilConception := none, daysUntilNextInseminationEarliest := none }
  let r1 :=
    match latest with
    | none => r0
    | some l =>
      let latestDate := l.date
      let rb :=
        if l.confirmedPregnant then
          let conceptionDate := latestDate
          let estCalving := addDays latestDate gestationDays
          let dryOffDate := addDays latestDate dryOffDays
          let changeFeedDate := addDays latestDate changeFeedDays
          { r0 with
            status := "Pregnant",
            conceptionDate := some conceptionDate,
            estCalving := some estCalving,
            dryOffDate := some dryOffDate,
            changeFeedDate := some changeFeedDate,
            daysUntilCalving := some (daysBetween estCalving now),
            daysUntilDryOff := some (daysBetween dryOffDate now),
            daysUntilChangeFeed := some (daysBetween changeFeedDate now),
            daysUntilConception := some (daysBetween conceptionDate now) }
        else if l.failed then
          { r0 with
            status := "Open",
            nextInseminationEarliest := some (addDays latestDate retryIntervalDays),
            daysUntilLatestInsemination := some (daysBetween latestDate now) }
        else
          let retryWindowEnd := addDays latestDate retryIntervalDays
          { r0 with
            status := "Pending",
            retryWindowEnd := some retryWindowEnd,
            daysUntilRetryWindowEnd := some (daysBetween retryWindowEnd now),
            daysUntilLatestInsemination := some (daysBetween latestDate now) }
      -- reopen: a calving recorded after conception means the cycle completed
      if rb.status = "Pregnant" then
        match lastCalving, rb.conceptionDate with
        | some lc, some cd =>
          if ts cd < ts lc then
            { rb with
              status := "Open", conceptionDate := none,
              estCalving := none, dryOffDate := none, changeFeedDate := none,
              daysUntilCalving := none }
          else rb
        | _, _ => rb
      else rb
  let r2 :=
    match lastCalving with
    | none => r1
    | some lc =>
      let postpartumEarliest := addDays lc postpartumStartDays
      match r1.nextInseminationEarliest with
      | some ne =>
        if ts ne < ts postpartumEarliest then
          { r1 with nextInseminationEarliest := some postpartumEarliest }
        else r1
      | none => { r1 with nextInseminationEarliest := some postpartumEarliest }
  let canAdd :=
    if r2.status = "Open" then
      match r2.nextInseminationEarliest with
      | none => true
      | some ne => decide (ts ne ≤ ts now)
    else false
  let canRetry :=
    if r2.status = "Pending" then
      match r2.retryWindowEnd with
      | none => false
      | some rw => decide (ts rw ≤ ts now)
    else false
  let canConfirm :=
    if r2.status = "Pending" then
      match r2.retryWindowEnd with
      | none => false
      | some rw => decide (ts rw ≤ ts now)
    else false
  { r2 with
    canAddInseminationNow := canAdd,
    canRetryNow := canRetry,
    canConfirmNow := canConfirm,
    daysUntilNextInseminationEarliest :=
      r2.nextInseminationEarliest.map (fun ne => daysBetween ne now),
    daysUntilLastCalving := cow.lastCalving.map (fun lc => daysBetween lc now),
    daysUntilLatestInsemination :=
      match latest with
      | some l => some (daysBetween l.date now)
      | none => r2.daysUntilLatestInsemination }

/-- The reproductive-state calculator `buildPregnancyInfo(cow, settings,
insems)` of the source, with the wall clock `now` made explicit: resolve
the five timing parameters with their `||` fallbacks, then run the body. -/
def buildPregnancyInfo (cow : Cow) (settings : Option Settings)
    (insems : List Insemination) (now : DateTime) : ReproState :=
  buildPregnancyInfoWith
    (jsOr (settings.bind (·.gestationDays)) 283)
    (jsOr (settings.bind (·.dryOffAfterSuccessfulInsemDays)) 220)
    (jsOr (settings.bind (·.changeFeedAfterSuccessfulInsemDays)) 260)
    (jsOr (settings.bind (·.postpartumInseminationStartDays)) 60)
    (jsOr (settings.bind (·.inseminationIntervalDays)) 90)
    cow insems now

/-- Calf record (the fields the alert builder reads). -/
structure Calf where
  id : Nat
  calfName : Option String := none
  birthDate : Option CivilDT := none
  gender : Option String := none
  status : Option String := none
  graduated : Bool := false
deriving DecidableEq

/-- Entity reference attached to a milestone event. -/
structure EntityRef where
  type : String
  id : Nat
  name : String
deriving DecidableEq

/-- Derived milestone event (the free-form `meta` payload of the source is
read by no claim and is omitted). -/
structure MilestoneEvent where
  when : DateTime
  alertDate : DateTime
  type : String
  label : String
  entity : EntityRef
deriving DecidableEq

/-- Confirmation record of the acknowledgement overlay. -/
structure ConfirmationRec where
  id : Nat
  entityType : String
  entityId : Nat
  type : String
  when : DateTime
  undone : Bool
deriving DecidableEq

/-- Alert lead times as resolved in `buildAlerts`. -/
structure Lead where
  calving : Nat
  dryOff : Nat
  changeFeed : Nat
  pregnancyCheck : Nat
  insemination : Nat
  graduation : Nat
  weaning : Nat
deriving DecidableEq

/-- The `lead` table of `buildAlerts` (`??` fallbacks, so a configured
`0` is honored). -/
def leadOf (settings : Option Settings) : Lead :=
  { calving := jsNullish (settings.bind (·.calvingAlertBeforeDays)) 10,
    dryOff := jsNullish (settings.bind (·.dryOffAlertBeforeDays)) 1,
    changeFeed := jsNullish (settings.bind (·.changeFeedAlertBeforeDays)) 1,
    pregnancyCheck := jsNullish (settings.bind (·.pregnancyCheckAlertBeforeDays)) 3,
    insemination := jsNullish (settings.bind (·.inseminationAlertBeforeDays)) 0,
    graduation := jsNullish (settings.bind (·.graduationAlertBeforeDays)) 7,
    weaning := jsNullish (settings.bind (·.weaningAlertBeforeDays)) 7 }

/-- The `push` helper of the cow loop of `buildAlerts`: emit one event per
non-null derived date, with `alertDate = when - l` where `l` is the
resolved lead (`lead[type] || 0` equals the resolved lead, `0` included). -/
def pushEvent (cow : Cow) (l : Nat) (typ lbl : String)
    (date : Option DateTime) : List MilestoneEvent :=
  match date with
  | none => []
  | some d =>
    [{ when := d, alertDate := addDays d (-(l : Int)), type := typ, label := lbl,
       entity := { type := "cow", id := cow.id,
                   name := jsOrS cow.cowName (jsOrS cow.cowNumber "Cow") } }]

/-- Cow-derived milestone events of `buildAlerts` (runs the reproductive
state calculator with the real wall clock and pushes each non-null derived
date). -/
def cowEvents (settings : Option Settings) (insems : List Insemination)
    (realNow : DateTime) (lead : Lead) (cow : Cow) : List MilestoneEvent :=
  let records := cowRecordsSortedDesc cow insems
  let repro := buildPregnancyInfo cow settings records realNow
  pushEvent cow lead.pregnancyCheck "pregnancyCheck" "Pregnancy check" repro.retryWindowEnd ++
  pushEvent cow lead.insemination "insemination" "Earliest insemination" repro.nextInseminationEarliest ++
  pushEvent cow lead.dryOff "dryOff" "Dry-Off" repro.dryOffDate ++
  pushEvent cow lead.changeFeed "changeFeed" "Change Feed" repro.changeFeedDate ++
  pushEvent cow lead.calving "calving" "Estimated Calving" repro.estCalving

/-- Weaning event of the calf loop of `buildAlerts`: requires `birthDate`
and `gender` present, and nothing else (no graduation or liveness check in
the source). -/
def weaningEvent (settings : Option Settings) (lead : Lead) (calf : Calf) :
    Option MilestoneEvent :=
  match calf.birthDate, calf.gender with
  | some b, some g =>
    let wDays := if g = "female" then jsNullish (settings.bind (·.femaleWeaningDays)) 180
                 else jsNullish (settings.bind (·.maleWeaningDays)) 180
    let wWhen := addDays b.toDateTime (wDays : Int)
    some { when := wWhen, alertDate := addDays wWhen (-(lead.weaning : Int)),
           type := "weaning", label := "Weaning (" ++ g ++ ")",
           entity := { type := "calf", id := calf.id,
                       name := jsOrS calf.calfName "Calf" } }
  | _, _ => none

/-- Graduation event of the calf loop of `buildAlerts`: requires not yet
graduated and `birthDate`/`gender` present (no liveness check in the
source); the due date increments the month field of the birth date. -/
def graduationEvent (settings : Option Settings) (lead : Lead) (calf : Calf) :
    Option MilestoneEvent :=
  if calf.graduated then none
  else
    match calf.birthDate, calf.gender with
    | some b, some g =>
      let months := if g = "female" then jsNullish (settings.bind (·.femaleMaturityMonths)) 24
                    else jsNullish (settings.bind (·.maleMaturityMonths)) 24
      let target := civilPlusMonths b (months : Int)
      some { when := target, alertDate := addDays target (-(lead.graduation : Int)),
             type := "graduation", label := "Graduate (" ++ g ++ ")",
             entity := { type := "calf", id := calf.id,
                         name := jsOrS calf.calfName "Calf" } }
    | _, _ => none

/-- The unified event list built by `buildAlerts` before confirmation
filtering: cow events, then calf weaning events, then calf graduation
events.  Only `realNow` (the wall clock inside `buildPregnancyInfo`)
enters the generation; the anchor date does not. -/
def buildAlertsEvents (cows : List Cow) (calves : List Calf)
    (settings : Option Settings) (insems : List Insemination)
    (realNow : DateTime) : List MilestoneEvent :=
  let lead := leadOf settings
  cows.flatMap (cowEvents settings insems realNow lead) ++
  calves.filterMap (weaningEvent settings lead) ++
  calves.filterMap (graduationEvent settings lead)

/-- Confirmation-matching key of an event: entity type, entity id,
milestone type, and `when` truncated to the calendar day (the source joins
these with `:` into a string after `toISOString().slice(0,10)`; ids and
type names contain no `:`, so the string key is this tuple). -/
def confKey (e : MilestoneEvent) : String × Nat × String × Int :=
  (e.entity.type, e.entity.id, e.type, e.when.day)

/-- Confirmation-matching key of a confirmation record (same encoding). -/
def confirmationKey (c : ConfirmationRec) : String × Nat × String × Int :=
  (c.entityType, c.entityId, c.type, c.when.day)

/-- Keys of the non-undone confirmations (the `confirmed` set of the
source). -/
def activeKeys (confs : List ConfirmationRec) : List (String × Nat × String × Int) :=
  (confs.filter fun c => !c.undone).map confirmationKey

/-- Confirmation filtering of `buildAlerts`: drop every event whose key is
confirmed by a non-undone record. -/
def filterActive (events : List MilestoneEvent) (confs : List ConfirmationRec) :
    List MilestoneEvent :=
  events.filter fun e => decide (confKey e ∉ activeKeys confs)

/-- The undo endpoint: `findByIdAndUpdate(id, { undone: true })` — set the
`undone` flag of the record with the given id. -/
def undoConfirmation (confs : List ConfirmationRec) (cid : Nat) : List ConfirmationRec :=
  confs.map fun c => if c.id = cid then { c with undone := true } else c

/-- Ascending order on events by alert date, as the past-due sort
comparator uses. -/
def eventLE (a b : MilestoneEvent) : Prop := ts a.alertDate ≤ ts b.alertDate

instance : DecidableRel eventLE := fun _ _ => Int.decLe _ _

instance : IsTotal MilestoneEvent eventLE := ⟨fun _ _ => Int.le_total _ _⟩

instance : IsTrans MilestoneEvent eventLE := ⟨fun _ _ _ h1 h2 => le_trans h1 h2⟩

/-- Start of the real current day: `new Date()` with
`setHours(0,0,0,0)`. -/
def startOfRealDay (realNow : DateTime) : DateTime := ⟨realNow.day, 0⟩

/-- The `pastDue` component of the calendar view built by `buildAlerts`:
filtered events whose alert date precedes the start of the real current
day, sorted ascending by alert date, first 100.  The anchor date selects
the week/month views only and does not enter this computation, which is
why it is an unused parameter here, exactly as in the source. -/
def buildAlertsPastDue (cows : List Cow) (calves : List Calf)
    (settings : Option Settings) (insems : List Insemination)
    (confs : List ConfirmationRec) (_anchorDate : Option DateTime)
    (realNow : DateTime) : List MilestoneEvent :=
  let filtered := filterActive (buildAlertsEvents cows calves settings insems realNow) confs
  let realTodayStart := startOfRealDay realNow
  (List.insertionSort eventLE
    (filtered.filter fun e => decide (ts e.alertDate < ts realTodayStart))).take 100

/-- Result of `getCalfGraduationInfo`. -/
structure GradInfo where
  targetDate : DateTime
  daysLeft : Int
  ready : Bool
deriving DecidableEq

/-- The maturity calculator `getCalfGraduationInfo(calf, settings)` of the
source, with the wall clock explicit; `null` when `birthDate` or `gender`
is missing. -/
def getCalfGraduationInfo (calf : Calf) (settings : Option Settings)
    (now : DateTime) : Option GradInfo :=
  match calf.birthDate, calf.gender with
  | some b, some g =>
    let thresholdMonths :=
      if g = "female" then jsNullish (settings.bind (·.femaleMaturityMonths)) 24
      else jsNullish (settings.bind (·.maleMaturityMonths)) 24
    let target := civilPlusMonths b (thresholdMonths : Int)
    let msLeft := (ts target - ts now) * 60000
    some { targetDate := target,
           daysLeft := -((-msLeft).fdiv 86400000),
           ready := decide (msLeft ≤ 0) }
  | _, _ => none

/-- The per-tenant defaults declared by the Community schema's
`cattleSettings` (src/models/community.js). -/
def communityCattleSettingsDefault : Settings :=
  { gestationDays := some 283,
    dryOffAfterSuccessfulInsemDays := some 220,
    changeFeedAfterSuccessfulInsemDays := some 210,
    postpartumInseminationStartDays := some 45,
    inseminationIntervalDays := some 21,
    calvingAlertBeforeDays := some 7,
    dryOffAlertBeforeDays := some 7,
    changeFeedAlertBeforeDays := some 7,
    pregnancyCheckAlertBeforeDays := some 7,
    inseminationAlertBeforeDays := some 7,
    graduationAlertBeforeDays := some 30,
    weaningAlertBeforeDays := some 7,
    femaleWeaningDays := some 60,
    maleWeaningDays := some 60,
    femaleMaturityMonths := some 24,
    maleMaturityMonths := some 24 }

-- Calendar sanity checks for the civil-date arithmetic
example : daysFromCivil 1970 1 1 = 0 := by decide
example : daysFromCivil 2024 1 1 = 19723 := by decide
example : daysFromCivil 2024 10 10 = 19723 + 283 := by decide
example : daysFromCivil 2024 8 8 = 19723 + 220 := by decide
example : civilPlusMonths ⟨2024, 1, 1, 0⟩ 24 = ⟨daysFromCivil 2026 1 1, 0⟩ := by decide

/-- Claim C1: for every cow whose latest breeding event is confirmed
pregnant, if the cow's `lastCalving` exists and is strictly after that
event's date (the conception date), `buildPregnancyInfo` resolves to state
Open with `conceptionDate`, `estCalving`, `dryOffDate` and
`changeFeedDate` all null, regardless of any other events in the
history. -/
theorem C1_reopening (cow : Cow) (settings : Option Settings)
    (insems : List Insemination) (now : DateTime) (e : Insemination)
    (lc : DateTime) (r : ReproState)
    (hr : r = buildPregnancyInfo cow settings insems now)
    (hl : (cowRecordsSortedDesc cow insems).head? = some e)
    (hcp : e.confirmedPregnant = true)
    (hlc : cow.lastCalving = some lc)
    (hafter : ts e.date < ts lc) :
    r.status = "Open" ∧ r.conceptionDate = none ∧ r.estCalving = none ∧
    r.dryOffDate = none ∧ r.changeFeedDate = none := by
  subst hr
  simp [buildPregnancyInfo, buildPregnancyInfoWith, hl, hcp, hlc, hafter]

theorem C1_reopening_witness :
    (cowRecordsSortedDesc ⟨1, none, none, some ⟨19800, 0⟩⟩
        [⟨1, 1, ⟨19723, 0⟩, true, false⟩]).head?
      = some ⟨1, 1, ⟨19723, 0⟩, true, false⟩ ∧
    ts (⟨19723, 0⟩ : DateTime) < ts (⟨19800, 0⟩ : DateTime) ∧
    ((buildPregnancyInfo ⟨1, none, none, some ⟨19800, 0⟩⟩ none
        [⟨1, 1, ⟨19723, 0⟩, true, false⟩] ⟨0, 0⟩).status = "Open" ∧
      (buildPregnancyInfo ⟨1, none, none, some ⟨19800, 0⟩⟩ none
        [⟨1, 1, ⟨19723, 0⟩, true, false⟩] ⟨0, 0⟩).conceptionDate = none ∧
      (buildPregnancyInfo ⟨1, none, none, some ⟨19800, 0⟩⟩ none
        [⟨1, 1, ⟨19723, 0⟩, true, false⟩] ⟨0, 0⟩).estCalving = none ∧
      (buildPregnancyInfo ⟨1, none, none, some ⟨19800, 0⟩⟩ none
        [⟨1, 1, ⟨19723, 0⟩, true, false⟩] ⟨0, 0⟩).dryOffDate = none ∧
      (buildPregnancyInfo ⟨1, none, none, some ⟨19800, 0⟩⟩ none
        [⟨1, 1, ⟨19723, 0⟩, true, false⟩] ⟨0, 0⟩).changeFeedDate = none) :=
  ⟨by decide, by decide,
    C1_reopening ⟨1, none, none, some ⟨19800, 0⟩⟩ none
      [⟨1, 1, ⟨19723, 0⟩, true, false⟩] ⟨0, 0⟩ ⟨1, 1, ⟨19723, 0⟩, true, false⟩
      ⟨19800, 0⟩ _ rfl (by decide) (by decide) (by decide) (by decide)⟩

/-- Claim C2: for every cow whose latest breeding event is confirmed
pregnant and whose cycle is not reopened by a later calving, the state is
Pregnant with `estCalving`, `dryOffDate` and `changeFeedDate` at the
event date plus the (defaulted) gestation, dry-off and feed-change day
counts. -/
theorem C2_pregnant_dates (cow : Cow) (settings : Option Settings)
    (insems : List Insemination) (now : DateTime) (e : Insemination)
    (r : ReproState)
    (hr : r = buildPregnancyInfo cow settings insems now)
    (hl : (cowRecordsSortedDesc cow insems).head? = some e)
    (hcp : e.confirmedPregnant = true)
    (hnore : ∀ lc, cow.lastCalving = some lc → ts lc ≤ ts e.date) :
    r.status = "Pregnant" ∧
    r.conceptionDate = some e.date ∧
    r.estCalving = some (addDays e.date (jsOr (settings.bind (·.gestationDays)) 283)) ∧
    r.dryOffDate = some (addDays e.date (jsOr (settings.bind (·.dryOffAfterSuccessfulInsemDays)) 220)) ∧
    r.changeFeedDate = some (addDays e.date (jsOr (settings.bind (·.changeFeedAfterSuccessfulInsemDays)) 260)) := by
  subst hr
  cases hc : cow.lastCalving with
  | none => simp [buildPregnancyInfo, buildPregnancyInfoWith, hl, hcp, hc]
  | some lc =>
    have hnlt : ¬ ts e.date < ts lc := not_lt.mpr (hnore lc hc)
    simp [buildPregnancyInfo, buildPregnancyInfoWith, hl, hcp, hc, hnlt]

theorem C2_pregnant_dates_witness :
    (cowRecordsSortedDesc ⟨1, none, none, none⟩
        [⟨1, 1, ⟨19723, 0⟩, true, false⟩]).head?
      = some ⟨1, 1, ⟨19723, 0⟩, true, false⟩ ∧
    communityCattleSettingsDefault.gestationDays = some 283 ∧
    communityCattleSettingsDefault.dryOffAfterSuccessfulInsemDays = some 220 ∧
    (⟨19723, 0⟩ : DateTime) = (⟨daysFromCivil 2024 1 1, 0⟩ : DateTime) ∧
    (buildPregnancyInfo ⟨1, none, none, none⟩ (some communityCattleSettingsDefault)
        [⟨1, 1, ⟨19723, 0⟩, true, false⟩] ⟨0, 0⟩).status = "Pregnant" ∧
    (buildPregnancyInfo ⟨1, none, none, none⟩ (some communityCattleSettingsDefault)
        [⟨1, 1, ⟨19723, 0⟩, true, false⟩] ⟨0, 0⟩).estCalving
      = some ⟨daysFromCivil 2024 10 10, 0⟩ ∧
    (buildPregnancyInfo ⟨1, none, none, none⟩ (some communityCattleSettingsDefault)
        [⟨1, 1, ⟨19723, 0⟩, true, false⟩] ⟨0, 0⟩).dryOffDate
      = some ⟨daysFromCivil 2024 8 8, 0⟩ := by
  have h := C2_pregnant_dates ⟨1, none, none, none⟩ (some communityCattleSettingsDefault)
    [⟨1, 1, ⟨19723, 0⟩, true, false⟩] ⟨0, 0⟩ ⟨1, 1, ⟨19723, 0⟩, true, false⟩ _
    rfl (by decide) (by decide) (fun lc hlc => by simp at hlc)
  refine ⟨by decide, by decide, by decide, by decide, h.1, ?_, ?_⟩
  · rw [h.2.2.1]; decide
  · rw [h.2.2.2.1]; decide

/-- Claim C6: for every cow whose latest breeding event has `failed` set
(and, per the data-model invariant, not `confirmedPregnant`), the state is
Open and `nextInseminationEarliest` is the event date plus the retry
interval, replaced by `lastCalving` plus the postpartum start offset when
that is strictly later. -/
theorem C6_failed_retry (cow : Cow) (settings : Option Settings)
    (insems : List Insemination) (now : DateTime) (e : Insemination)
    (r : ReproState)
    (hr : r = buildPregnancyInfo cow settings insems now)
    (hl : (cowRecordsSortedDesc cow insems).head? = some e)
    (hcp : e.confirmedPregnant = false)
    (hf : e.failed = true) :
    r.status = "Open" ∧
    r.nextInseminationEarliest = some (
      match cow.lastCalving with
      | none => addDays e.date (jsOr (settings.bind (·.inseminationIntervalDays)) 90)
      | some lc =>
        if ts (addDays e.date (jsOr (settings.bind (·.inseminationIntervalDays)) 90))
            < ts (addDays lc (jsOr (settings.bind (·.postpartumInseminationStartDays)) 60))
        then addDays lc (jsOr (settings.bind (·.postpartumInseminationStartDays)) 60)
        else addDays e.date (jsOr (settings.bind (·.inseminationIntervalDays)) 90)) := by
  subst hr
  cases hc : cow.lastCalving with
  | none => simp [buildPregnancyInfo, buildPregnancyInfoWith, hl, hcp, hf, hc]
  | some lc =>
    by_cases hcmp : ts (addDays e.date (jsOr (settings.bind (·.inseminationIntervalDays)) 90))
        < ts (addDays lc (jsOr (settings.bind (·.postpartumInseminationStartDays)) 60))
    · simp [buildPregnancyInfo, buildPregnancyInfoWith, hl, hcp, hf, hc, hcmp]
    · simp [buildPregnancyInfo, buildPregnancyInfoWith, hl, hcp, hf, hc, hcmp]

theorem C6_failed_retry_witness :
    (cowRecordsSortedDesc ⟨1, none, none, none⟩
        [⟨1, 1, ⟨19723, 0⟩, false, true⟩]).head?
      = some ⟨1, 1, ⟨19723, 0⟩, false, true⟩ ∧
    (⟨19723, 0⟩ : DateTime) = (⟨daysFromCivil 2024 1 1, 0⟩ : DateTime) ∧
    (buildPregnancyInfo ⟨1, none, none, none⟩
        (some { inseminationIntervalDays := some 21 })
        [⟨1, 1, ⟨19723, 0⟩, false, true⟩] ⟨0, 0⟩).status = "Open" ∧
    (buildPregnancyInfo ⟨1, none, none, none⟩
        (some { inseminationIntervalDays := some 21 })
        [⟨1, 1, ⟨19723, 0⟩, false, true⟩] ⟨0, 0⟩).nextInseminationEarliest
      = some ⟨daysFromCivil 2024 1 22, 0⟩ := by
  have h := C6_failed_retry ⟨1, none, none, none⟩
    (some { inseminationIntervalDays := some 21 })
    [⟨1, 1, ⟨19723, 0⟩, false, true⟩] ⟨0, 0⟩ ⟨1, 1, ⟨19723, 0⟩, false, true⟩ _
    rfl (by decide) (by decide) (by decide)
  refine ⟨by decide, by decide, h.1, ?_⟩
  rw [h.2]; decide

/-- Claim C5: output guarantees of the reproductive state calculator: the
returned state is exactly one of Open, Pending, Pregnant; each pregnancy
date field is null unless the Pregnant branch was taken and survived the
reopening check; `retryWindowEnd` is null unless the Pending branch was
taken; `nextInseminationEarliest` is null unless the failed branch or the
last-calving merge set it.  The embedded function is total, which is the
no-exception guarantee of the claim. -/
theorem C5_output_guarantees (cow : Cow) (settings : Option Settings)
    (insems : List Insemination) (now : DateTime) (r : ReproState)
    (hr : r = buildPregnancyInfo cow settings insems now) :
    (r.status = "Open" ∨ r.status = "Pending" ∨ r.status = "Pregnant") ∧
    (r.conceptionDate.isSome → r.status = "Pregnant") ∧
    (r.estCalving.isSome → r.status = "Pregnant") ∧
    (r.dryOffDate.isSome → r.status = "Pregnant") ∧
    (r.changeFeedDate.isSome → r.status = "Pregnant") ∧
    (r.retryWindowEnd.isSome → r.status = "Pending") ∧
    (r.nextInseminationEarliest.isSome →
      cow.lastCalving.isSome ∨
      ∃ l, (cowRecordsSortedDesc cow insems).head? = some l ∧
        l.confirmedPregnant = false ∧ l.failed = true) := by
  subst hr
  cases hl : (cowRecordsSortedDesc cow insems).head? with
  | none =>
    cases hc : cow.lastCalving with
    | none => simp [buildPregnancyInfo, buildPregnancyInfoWith, hl, hc]
    | some lc => simp [buildPregnancyInfo, buildPregnancyInfoWith, hl, hc]
  | some e =>
    cases hcp : e.confirmedPregnant with
    | true =>
      cases hc : cow.lastCalving with
      | none => simp [buildPregnancyInfo, buildPregnancyInfoWith, hl, hcp, hc]
      | some lc =>
        by_cases hcmp : ts e.date < ts lc
        · simp [buildPregnancyInfo, buildPregnancyInfoWith, hl, hcp, hc, hcmp]
        · simp [buildPregnancyInfo, buildPregnancyInfoWith, hl, hcp, hc, hcmp]
    | false =>
      cases hf : e.failed with
      | true =>
        cases hc : cow.lastCalving with
        | none =>
          simp [buildPregnancyInfo, buildPregnancyInfoWith, hl, hcp, hf, hc]
        | some lc =>
          by_cases hcmp : ts (addDays e.date (jsOr (settings.bind (·.inseminationIntervalDays)) 90))
              < ts (addDays lc (jsOr (settings.bind (·.postpartumInseminationStartDays)) 60))
          · simp [buildPregnancyInfo, buildPregnancyInfoWith, hl, hcp, hf, hc, hcmp]
          · simp [buildPregnancyInfo, buildPregnancyInfoWith, hl, hcp, hf, hc, hcmp]
      | false =>
        cases hc : cow.lastCalving with
        | none => simp [buildPregnancyInfo, buildPregnancyInfoWith, hl, hcp, hf, hc]
        | some lc => simp [buildPregnancyInfo, buildPregnancyInfoWith, hl, hcp, hf, hc]

theorem C5_output_guarantees_witness :
    ((buildPregnancyInfo ⟨1, none, none, none⟩ none
        [⟨1, 1, ⟨19723, 0⟩, false, false⟩] ⟨0, 0⟩).status = "Open" ∨
      (buildPregnancyInfo ⟨1, none, none, none⟩ none
        [⟨1, 1, ⟨19723, 0⟩, false, false⟩] ⟨0, 0⟩).status = "Pending" ∨
      (buildPregnancyInfo ⟨1, none, none, none⟩ none
        [⟨1, 1, ⟨19723, 0⟩, false, false⟩] ⟨0, 0⟩).status = "Pregnant") ∧
    ((buildPregnancyInfo ⟨1, none, none, none⟩ none
        [⟨1, 1, ⟨19723, 0⟩, false, false⟩] ⟨0, 0⟩).retryWindowEnd.isSome →
      (buildPregnancyInfo ⟨1, none, none, none⟩ none
        [⟨1, 1, ⟨19723, 0⟩, false, false⟩] ⟨0, 0⟩).status = "Pending") :=
  let h := C5_output_guarantees ⟨1, none, none, none⟩ none
    [⟨1, 1, ⟨19723, 0⟩, false, false⟩] ⟨0, 0⟩ _ rfl
  ⟨h.1, h.2.2.2.2.2.1⟩

/-- Claim C10: in `buildPregnancyInfo`, each core timing parameter
(gestation, dry-off, feed-change, postpartum start, retry interval) that
is present but equal to `0` is treated exactly as if it were absent — the
`||` fallback substitutes the documented default, with the remaining
configuration arbitrary — whereas each of the seven alert lead times in
`buildAlerts` uses `??`, so a configured `0` lead is honored as `0` (only
that one lead changes in the resolved table) while an absent lead falls
back to its documented default (10, 1, 1, 3, 0, 7, 7). -/
theorem C10_zero_config_fallback (s : Settings) (cow : Cow)
    (insems : List Insemination) (now : DateTime) :
    (buildPregnancyInfo cow (some { s with gestationDays := some 0 }) insems now
      = buildPregnancyInfo cow (some { s with gestationDays := none }) insems now) ∧
    (buildPregnancyInfo cow (some { s with dryOffAfterSuccessfulInsemDays := some 0 }) insems now
      = buildPregnancyInfo cow (some { s with dryOffAfterSuccessfulInsemDays := none }) insems now) ∧
    (buildPregnancyInfo cow (some { s with changeFeedAfterSuccessfulInsemDays := some 0 }) insems now
      = buildPregnancyInfo cow (some { s with changeFeedAfterSuccessfulInsemDays := none }) insems now) ∧
    (buildPregnancyInfo cow (some { s with postpartumInseminationStartDays := some 0 }) insems now
      = buildPregnancyInfo cow (some { s with postpartumInseminationStartDays := none }) insems now) ∧
    (buildPregnancyInfo cow (some { s with inseminationIntervalDays := some 0 }) insems now
      = buildPregnancyInfo cow (some { s with inseminationIntervalDays := none }) insems now) ∧
    (leadOf (some { s with calvingAlertBeforeDays := some 0 })
      = { leadOf (some s) with calving := 0 }) ∧
    ((leadOf (some { s with calvingAlertBeforeDays := none })).calving = 10) ∧
    (leadOf (some { s with dryOffAlertBeforeDays := some 0 })
      = { leadOf (some s) with dryOff := 0 }) ∧
    ((leadOf (some { s with dryOffAlertBeforeDays := none })).dryOff = 1) ∧
    (leadOf (some { s with changeFeedAlertBeforeDays := some 0 })
      = { leadOf (some s) with changeFeed := 0 }) ∧
    ((leadOf (some { s with changeFeedAlertBeforeDays := none })).changeFeed = 1) ∧
    (leadOf (some { s with pregnancyCheckAlertBeforeDays := some 0 })
      = { leadOf (some s) with pregnancyCheck := 0 }) ∧
    ((leadOf (some { s with pregnancyCheckAlertBeforeDays := none })).pregnancyCheck = 3) ∧
    (leadOf (some { s with inseminationAlertBeforeDays := some 0 })
      = { leadOf (some s) with insemination := 0 }) ∧
    ((leadOf (some { s with inseminationAlertBeforeDays := none })).insemination = 0) ∧
    (leadOf (some { s with graduationAlertBeforeDays := some 0 })
      = { leadOf (some s) with graduation := 0 }) ∧
    ((leadOf (some { s with graduationAlertBeforeDays := none })).graduation = 7) ∧
    (leadOf (some { s with weaningAlertBeforeDays := some 0 })
      = { leadOf (some s) with weaning := 0 }) ∧
    ((leadOf (some { s with weaningAlertBeforeDays := none })).weaning = 7) :=
  ⟨rfl, rfl, rfl, rfl, rfl, rfl, rfl, rfl, rfl, rfl,
   rfl, rfl, rfl, rfl, rfl, rfl, rfl, rfl, rfl⟩

/-- Claim C3, counterexample: the fallback defaults of the three consumers
do not agree.  Feeding the Community schema's declared per-tenant defaults
into the calculators changes their behavior relative to an absent
configuration: with no settings `buildPregnancyInfo` projects the feed
change 260 days after conception, under the schema defaults 210 days; the
alert lead table resolved with no settings is (10,1,1,3,0,7,7) but under
the schema defaults (7,7,7,7,7,30,7). -/
theorem C3_default_table_counterexample :
    (buildPregnancyInfo ⟨1, none, none, none⟩ none
        [⟨1, 1, ⟨19723, 0⟩, true, false⟩] ⟨0, 0⟩).changeFeedDate
      = some ⟨19723 + 260, 0⟩ ∧
    (buildPregnancyInfo ⟨1, none, none, none⟩ (some communityCattleSettingsDefault)
        [⟨1, 1, ⟨19723, 0⟩, true, false⟩] ⟨0, 0⟩).changeFeedDate
      = some ⟨19723 + 210, 0⟩ ∧
    communityCattleSettingsDefault.changeFeedAfterSuccessfulInsemDays = some 210 ∧
    leadOf none ≠ leadOf (some communityCattleSettingsDefault) := by
  refine ⟨by decide, by decide, by decide, by decide⟩

/-- Claim C3, amended: the fallbacks agree between `buildPregnancyInfo` /
`buildAlerts` and the Community schema's `cattleSettings` defaults only
for `gestationDays` (283), `dryOffAfterSuccessfulInsemDays` (220),
`weaningAlertBeforeDays` (7) and the maturity months (24); they diverge
for the feed-change offset (260 vs 210), the postpartum start (60 vs 45),
the insemination retry interval (90 vs 21), the weaning day counts (180 vs
60) and every other alert lead time (calving 10 vs 7, dry-off 1 vs 7,
feed-change 1 vs 7, pregnancy-check 3 vs 7, insemination 0 vs 7,
graduation 7 vs 30). -/
theorem C3_default_divergence_amended :
    -- gestation and dry-off fallbacks coincide with the schema defaults
    (buildPregnancyInfo ⟨1, none, none, none⟩ none
        [⟨1, 1, ⟨19723, 0⟩, true, false⟩] ⟨0, 0⟩).estCalving
      = (buildPregnancyInfo ⟨1, none, none, none⟩ (some communityCattleSettingsDefault)
        [⟨1, 1, ⟨19723, 0⟩, true, false⟩] ⟨0, 0⟩).estCalving ∧
    (buildPregnancyInfo ⟨1, none, none, none⟩ none
        [⟨1, 1, ⟨19723, 0⟩, true, false⟩] ⟨0, 0⟩).dryOffDate
      = (buildPregnancyInfo ⟨1, none, none, none⟩ (some communityCattleSettingsDefault)
        [⟨1, 1, ⟨19723, 0⟩, true, false⟩] ⟨0, 0⟩).dryOffDate ∧
    -- feed change diverges: 260 with no settings, 210 under the schema defaults
    (buildPregnancyInfo ⟨1, none, none, none⟩ none
        [⟨1, 1, ⟨19723, 0⟩, true, false⟩] ⟨0, 0⟩).changeFeedDate
      ≠ (buildPregnancyInfo ⟨1, none, none, none⟩ (some communityCattleSettingsDefault)
        [⟨1, 1, ⟨19723, 0⟩, true, false⟩] ⟨0, 0⟩).changeFeedDate ∧
    -- retry interval diverges: 90 with no settings, 21 under the schema defaults
    (buildPregnancyInfo ⟨1, none, none, none⟩ none
        [⟨1, 1, ⟨19723, 0⟩, false, false⟩] ⟨0, 0⟩).retryWindowEnd = some ⟨19723 + 90, 0⟩ ∧
    (buildPregnancyInfo ⟨1, none, none, none⟩ (some communityCattleSettingsDefault)
        [⟨1, 1, ⟨19723, 0⟩, false, false⟩] ⟨0, 0⟩).retryWindowEnd = some ⟨19723 + 21, 0⟩ ∧
    -- postpartum start diverges: 60 with no settings, 45 under the schema defaults
    (buildPregnancyInfo ⟨1, none, none, some ⟨19723, 0⟩⟩ none [] ⟨0, 0⟩).nextInseminationEarliest
      = some ⟨19723 + 60, 0⟩ ∧
    (buildPregnancyInfo ⟨1, none, none, some ⟨19723, 0⟩⟩ (some communityCattleSettingsDefault)
        [] ⟨0, 0⟩).nextInseminationEarliest = some ⟨19723 + 45, 0⟩ ∧
    -- alert leads: only the weaning lead (7) coincides
    leadOf none = ⟨10, 1, 1, 3, 0, 7, 7⟩ ∧
    leadOf (some communityCattleSettingsDefault) = ⟨7, 7, 7, 7, 7, 30, 7⟩ ∧
    -- weaning day counts diverge (180 vs 60), maturity months agree (24)
    (weaningEvent none (leadOf none)
        ⟨1, none, some ⟨2024, 1, 1, 0⟩, some "female", some "alive", false⟩).map (·.when)
      = some ⟨19723 + 180, 0⟩ ∧
    (weaningEvent (some communityCattleSettingsDefault) (leadOf none)
        ⟨1, none, some ⟨2024, 1, 1, 0⟩, some "female", some "alive", false⟩).map (·.when)
      = some ⟨19723 + 60, 0⟩ ∧
    (graduationEvent none (leadOf none)
        ⟨1, none, some ⟨2024, 1, 1, 0⟩, some "female", some "alive", false⟩).map (·.when)
      = (graduationEvent (some communityCattleSettingsDefault) (leadOf none)
        ⟨1, none, some ⟨2024, 1, 1, 0⟩, some "female", some "alive", false⟩).map (·.when) := by
  refine ⟨by decide, by decide, by decide, by decide, by decide, by decide, by decide,
    by decide, by decide, by decide, by decide, by decide⟩

-- Events pushed in the cow loop carry entity type "cow" and the pushed
-- milestone type.
theorem pushEvent_shape (cow : Cow) (l : Nat) (typ lbl : String)
    (date : Option DateTime) :
    ∀ e ∈ pushEvent cow l typ lbl date, e.entity.type = "cow" ∧ e.type = typ := by
  intro e he
  cases date with
  | none => simp [pushEvent] at he
  | some d =>
    simp [pushEvent] at he
    subst he
    exact ⟨rfl, rfl⟩

-- Every cow-loop event carries entity type "cow".
theorem cowEvents_entity_type (settings : Option Settings)
    (insems : List Insemination) (realNow : DateTime) (lead : Lead) (cow : Cow) :
    ∀ e ∈ cowEvents settings insems realNow lead cow, e.entity.type = "cow" := by
  intro e he
  simp only [cowEvents, List.mem_append] at he
  rcases he with ((((h | h) | h) | h) | h) <;>
    exact (pushEvent_shape _ _ _ _ _ e h).1

-- Shape of an emitted weaning event.
theorem weaningEvent_shape (settings : Option Settings) (lead : Lead)
    (calf : Calf) (e : MilestoneEvent)
    (h : weaningEvent settings lead calf = some e) :
    e.type = "weaning" ∧ e.entity.type = "calf" ∧ e.entity.id = calf.id ∧
    ∃ b g, calf.birthDate = some b ∧ calf.gender = some g ∧
      e.when = addDays b.toDateTime
        (((if g = "female" then jsNullish (settings.bind (·.femaleWeaningDays)) 180
           else jsNullish (settings.bind (·.maleWeaningDays)) 180) : Nat) : Int) := by
  cases hb : calf.birthDate with
  | none => simp [weaningEvent, hb] at h
  | some b =>
    cases hg : calf.gender with
    | none => simp [weaningEvent, hb, hg] at h
    | some g =>
      simp only [weaningEvent, hb, hg, Option.some.injEq] at h
      subst h
      exact ⟨rfl, rfl, rfl, b, g, rfl, rfl, rfl⟩

-- A weaning event is emitted iff birth date and gender are present.
theorem weaningEvent_isSome_iff (settings : Option Settings) (lead : Lead)
    (calf : Calf) :
    (weaningEvent settings lead calf).isSome ↔
      calf.birthDate.isSome ∧ calf.gender.isSome := by
  cases hb : calf.birthDate <;> cases hg : calf.gender <;>
    simp [weaningEvent, hb, hg]

-- Shape of an emitted graduation event.
theorem graduationEvent_shape (settings : Option Settings) (lead : Lead)
    (calf : Calf) (e : MilestoneEvent)
    (h : graduationEvent settings lead calf = some e) :
    e.type = "graduation" ∧ e.entity.type = "calf" ∧ e.entity.id = calf.id ∧
    calf.graduated = false ∧
    ∃ b g, calf.birthDate = some b ∧ calf.gender = some g ∧
      e.when = civilPlusMonths b
        (((if g = "female" then jsNullish (settings.bind (·.femaleMaturityMonths)) 24
           else jsNullish (settings.bind (·.maleMaturityMonths)) 24) : Nat) : Int) := by
  cases hgr : calf.graduated with
  | true => simp [graduationEvent, hgr] at h
  | false =>
    cases hb : calf.birthDate with
    | none => simp [graduationEvent, hgr, hb] at h
    | some b =>
      cases hg : calf.gender with
      | none => simp [graduationEvent, hgr, hb, hg] at h
      | some g =>
        simp only [graduationEvent, hgr, hb, hg, if_false, Bool.false_eq_true,
          Option.some.injEq] at h
        subst h
        exact ⟨rfl, rfl, rfl, rfl, b, g, rfl, rfl, rfl⟩

-- A graduation event is emitted iff not graduated and birth date and
-- gender are present.
theorem graduationEvent_isSome_iff (settings : Option Settings) (lead : Lead)
    (calf : Calf) :
    (graduationEvent settings lead calf).isSome ↔
      calf.graduated = false ∧ calf.birthDate.isSome ∧ calf.gender.isSome := by
  cases hgr : calf.graduated <;> cases hb : calf.birthDate <;>
    cases hg : calf.gender <;> simp [graduationEvent, hgr, hb, hg]

-- Membership in the unified event list splits over its three sections.
theorem mem_buildAlertsEvents_iff (cows : List Cow) (calves : List Calf)
    (settings : Option Settings) (insems : List Insemination)
    (realNow : DateTime) (e : MilestoneEvent) :
    e ∈ buildAlertsEvents cows calves settings insems realNow ↔
      e ∈ cows.flatMap (cowEvents settings insems realNow (leadOf settings)) ∨
      e ∈ calves.filterMap (weaningEvent settings (leadOf settings)) ∨
      e ∈ calves.filterMap (graduationEvent settings (leadOf settings)) := by
  simp [buildAlertsEvents, List.mem_append, or_assoc]

/-- Claim C4, counterexample: a calf that is already graduated and has
status "died" (with birth date and gender present) still receives a
weaning milestone event from the alert builder, although the claim allows
milestone events only for calves that are not yet graduated and alive. -/
theorem C4_milestone_emission_counterexample :
    (⟨1, none, some ⟨2024, 1, 1, 0⟩, some "female", some "died", true⟩ : Calf).graduated = true ∧
    (⟨1, none, some ⟨2024, 1, 1, 0⟩, some "female", some "died", true⟩ : Calf).status = some "died" ∧
    ∃ e ∈ buildAlertsEvents []
        [⟨1, none, some ⟨2024, 1, 1, 0⟩, some "female", some "died", true⟩] none [] ⟨0, 0⟩,
      e.type = "weaning" ∧ e.entity.id = 1 := by
  refine ⟨rfl, rfl, ?_⟩
  decide

/-- Claim C4, amended: in the milestone builder a weaning event is emitted
exactly for calves with birth date and gender present (regardless of
graduation or status), and a graduation event exactly for calves that
additionally are not yet graduated (regardless of status); the graduation
due date increments the month field of the birth date by the sex-specific
maturity months (calendar-month arithmetic), in both `buildAlerts` and
`getCalfGraduationInfo`. -/
theorem C4_milestone_emission_amended (cows : List Cow) (calves : List Calf)
    (settings : Option Settings) (insems : List Insemination)
    (realNow : DateTime) (cid : Nat) :
    ((∃ e ∈ buildAlertsEvents cows calves settings insems realNow,
        e.type = "weaning" ∧ e.entity.type = "calf" ∧ e.entity.id = cid) ↔
      ∃ c ∈ calves, c.id = cid ∧ c.birthDate.isSome ∧ c.gender.isSome) ∧
    ((∃ e ∈ buildAlertsEvents cows calves settings insems realNow,
        e.type = "graduation" ∧ e.entity.type = "calf" ∧ e.entity.id = cid) ↔
      ∃ c ∈ calves, c.id = cid ∧ c.graduated = false ∧
        c.birthDate.isSome ∧ c.gender.isSome) ∧
    (∀ c ∈ calves, ∀ b g, c.birthDate = some b → c.gender = some g →
      c.graduated = false →
      ∃ e ∈ buildAlertsEvents cows calves settings insems realNow,
        e.type = "graduation" ∧ e.entity.id = c.id ∧
        e.when = civilPlusMonths b
          (((if g = "female" then jsNullish (settings.bind (·.femaleMaturityMonths)) 24
             else jsNullish (settings.bind (·.maleMaturityMonths)) 24) : Nat) : Int)) ∧
    (∀ calf : Calf, ∀ b g, calf.birthDate = some b → calf.gender = some g →
      (getCalfGraduationInfo calf settings realNow).map (·.targetDate) =
        some (civilPlusMonths b
          (((if g = "female" then jsNullish (settings.bind (·.femaleMaturityMonths)) 24
             else jsNullish (settings.bind (·.maleMaturityMonths)) 24) : Nat) : Int))) := by
  refine ⟨?_, ?_, ?_, ?_⟩
  · constructor
    · rintro ⟨e, he, htyp, hety, hid⟩
      rcases (mem_buildAlertsEvents_iff _ _ _ _ _ _).mp he with h | h | h
      · rcases List.mem_flatMap.mp h with ⟨c, -, hce⟩
        have := cowEvents_entity_type _ _ _ _ _ e hce
        simp [this] at hety
      · rcases List.mem_filterMap.mp h with ⟨c, hc, hev⟩
        obtain ⟨-, -, hidc, b, g, hb, hg, -⟩ := weaningEvent_shape _ _ _ _ hev
        exact ⟨c, hc, by rw [← hid, hidc], by simp [hb], by simp [hg]⟩
      · rcases List.mem_filterMap.mp h with ⟨c, hc, hev⟩
        have := (graduationEvent_shape _ _ _ _ hev).1
        simp [this] at htyp
    · rintro ⟨c, hc, hid, hb, hg⟩
      obtain ⟨ev, hev⟩ := Option.isSome_iff_exists.mp
        ((weaningEvent_isSome_iff settings (leadOf settings) c).mpr ⟨hb, hg⟩)
      obtain ⟨h1, h2, h3, -⟩ := weaningEvent_shape _ _ _ _ hev
      refine ⟨ev, (mem_buildAlertsEvents_iff _ _ _ _ _ _).mpr
        (Or.inr (Or.inl (List.mem_filterMap.mpr ⟨c, hc, hev⟩))), h1, h2, ?_⟩
      rw [h3, hid]
  · constructor
    · rintro ⟨e, he, htyp, hety, hid⟩
      rcases (mem_buildAlertsEvents_iff _ _ _ _ _ _).mp he with h | h | h
      · rcases List.mem_flatMap.mp h with ⟨c, -, hce⟩
        have := cowEvents_entity_type _ _ _ _ _ e hce
        simp [this] at hety
      · rcases List.mem_filterMap.mp h with ⟨c, hc, hev⟩
        have := (weaningEvent_shape _ _ _ _ hev).1
        simp [this] at htyp
      · rcases List.mem_filterMap.mp h with ⟨c, hc, hev⟩
        obtain ⟨-, -, hidc, hgr, b, g, hb, hg, -⟩ := graduationEvent_shape _ _ _ _ hev
        exact ⟨c, hc, by rw [← hid, hidc], hgr, by simp [hb], by simp [hg]⟩
    · rintro ⟨c, hc, hid, hgr, hb, hg⟩
      obtain ⟨ev, hev⟩ := Option.isSome_iff_exists.mp
        ((graduationEvent_isSome_iff settings (leadOf settings) c).mpr ⟨hgr, hb, hg⟩)
      obtain ⟨h1, h2, h3, -, -⟩ := graduationEvent_shape _ _ _ _ hev
      refine ⟨ev, (mem_buildAlertsEvents_iff _ _ _ _ _ _).mpr
        (Or.inr (Or.inr (List.mem_filterMap.mpr ⟨c, hc, hev⟩))), h1, h2, ?_⟩
      rw [h3, hid]
  · rintro c hc b g hb hg hgr
    obtain ⟨ev, hev⟩ := Option.isSome_iff_exists.mp
      ((graduationEvent_isSome_iff settings (leadOf settings) c).mpr
        ⟨hgr, by simp [hb], by simp [hg]⟩)
    obtain ⟨h1, -, h3, -, b', g', hb', hg', hwhen⟩ := graduationEvent_shape _ _ _ _ hev
    rw [hb] at hb'
    rw [hg] at hg'
    cases hb'
    cases hg'
    exact ⟨ev, (mem_buildAlertsEvents_iff _ _ _ _ _ _).mpr
      (Or.inr (Or.inr (List.mem_filterMap.mpr ⟨c, hc, hev⟩))), h1, h3, hwhen⟩
  · rintro calf b g hb hg
    simp [getCalfGraduationInfo, hb, hg]

theorem C4_milestone_emission_witness :
    ∃ e ∈ buildAlertsEvents []
        [⟨7, none, some ⟨2024, 1, 1, 0⟩, some "female", some "alive", false⟩]
        (some communityCattleSettingsDefault) [] ⟨0, 0⟩,
      e.type = "graduation" ∧ e.entity.id = 7 ∧
      e.when = ⟨daysFromCivil 2026 1 1, 0⟩ := by
  obtain ⟨e, he, h1, h2, h3⟩ :=
    (C4_milestone_emission_amended []
      [⟨7, none, some ⟨2024, 1, 1, 0⟩, some "female", some "alive", false⟩]
      (some communityCattleSettingsDefault) [] ⟨0, 0⟩ 7).2.2.1
      ⟨7, none, some ⟨2024, 1, 1, 0⟩, some "female", some "alive", false⟩
      (by simp) ⟨2024, 1, 1, 0⟩ "female" rfl rfl rfl
  exact ⟨e, he, h1, h2, by rw [h3]; decide⟩

/-- Claim C7: confirmation filtering matches on whole-day precision: an
event of the built list is removed by `filterActive` exactly when some
non-undone confirmation record has the same entity type, entity id and
milestone type and its `when` truncated to the calendar day equals the
event's `when` truncated to the calendar day. -/
theorem C7_confirmation_day_match (events : List MilestoneEvent)
    (confs : List ConfirmationRec) (e : MilestoneEvent)
    (he : e ∈ events) :
    (e ∉ filterActive events confs ↔
      ∃ c ∈ confs, c.undone = false ∧ c.entityType = e.entity.type ∧
        c.entityId = e.entity.id ∧ c.type = e.type ∧
        c.when.day = e.when.day) := by
  constructor
  · intro hno
    have hmem : confKey e ∈ activeKeys confs := by
      by_contra hnm
      refine hno (List.mem_filter.mpr ⟨he, ?_⟩)
      simp only [decide_eq_true_eq]
      exact hnm
    rcases List.mem_map.mp hmem with ⟨c, hcf, hkey⟩
    rcases List.mem_filter.mp hcf with ⟨hc, hund⟩
    have h4 : c.entityType = e.entity.type ∧ c.entityId = e.entity.id ∧
        c.type = e.type ∧ c.when.day = e.when.day := by
      simpa [confirmationKey, confKey, Prod.ext_iff] using hkey
    exact ⟨c, hc, by simpa using hund, h4.1, h4.2.1, h4.2.2.1, h4.2.2.2⟩
  · rintro ⟨c, hc, hund, h1, h2, h3, h4⟩ hmem
    rcases List.mem_filter.mp hmem with ⟨-, hpred⟩
    refine of_decide_eq_true hpred
      (List.mem_map.mpr ⟨c, List.mem_filter.mpr ⟨hc, by simp [hund]⟩, ?_⟩)
    simp [confirmationKey, confKey, Prod.ext_iff, h1, h2, h3, h4]

theorem C7_confirmation_day_match_witness :
    (⟨19787, 1380⟩ : DateTime) = ⟨daysFromCivil 2024 3 5, 23 * 60⟩ ∧
    (⟨19787, 10⟩ : DateTime) = ⟨daysFromCivil 2024 3 5, 10⟩ ∧
    (⟨⟨19787, 1380⟩, ⟨19787, 1380⟩, "dryOff", "Dry-Off", ⟨"cow", 5, "Bella"⟩⟩ : MilestoneEvent)
      ∈ [(⟨⟨19787, 1380⟩, ⟨19787, 1380⟩, "dryOff", "Dry-Off", ⟨"cow", 5, "Bella"⟩⟩ : MilestoneEvent)] ∧
    (⟨⟨19787, 1380⟩, ⟨19787, 1380⟩, "dryOff", "Dry-Off", ⟨"cow", 5, "Bella"⟩⟩ : MilestoneEvent)
      ∉ filterActive
        [⟨⟨19787, 1380⟩, ⟨19787, 1380⟩, "dryOff", "Dry-Off", ⟨"cow", 5, "Bella"⟩⟩]
        [⟨9, "cow", 5, "dryOff", ⟨19787, 10⟩, false⟩] := by
  refine ⟨by decide, by decide, by decide, ?_⟩
  exact (C7_confirmation_day_match
    [⟨⟨19787, 1380⟩, ⟨19787, 1380⟩, "dryOff", "Dry-Off", ⟨"cow", 5, "Bella"⟩⟩]
    [⟨9, "cow", 5, "dryOff", ⟨19787, 10⟩, false⟩]
    ⟨⟨19787, 1380⟩, ⟨19787, 1380⟩, "dryOff", "Dry-Off", ⟨"cow", 5, "Bella"⟩⟩
    (by decide)).mpr
    ⟨⟨9, "cow", 5, "dryOff", ⟨19787, 10⟩, false⟩, by decide, rfl, rfl, rfl, rfl, rfl⟩

/-- Claim C8: undo round-trip: if an event of the built list was
suppressed and every non-undone confirmation matching it has id `k`, then
after the undo endpoint sets that record's `undone` flag the event passes
the confirmation filter again. -/
theorem C8_undo_restores_event (events : List MilestoneEvent)
    (confs : List ConfirmationRec) (e : MilestoneEvent) (k : Nat)
    (he : e ∈ events)
    (_hsupp : e ∉ filterActive events confs)
    (honly : ∀ c ∈ confs, c.undone = false → confirmationKey c = confKey e →
      c.id = k) :
    e ∈ filterActive events (undoConfirmation confs k) := by
  refine List.mem_filter.mpr ⟨he, ?_⟩
  simp only [decide_eq_true_eq]
  intro hmem
  rcases List.mem_map.mp hmem with ⟨c', hc'f, hkey⟩
  rcases List.mem_filter.mp hc'f with ⟨hc'u, hund⟩
  rcases List.mem_map.mp hc'u with ⟨c, hc, hc'eq⟩
  by_cases hid : c.id = k
  · rw [if_pos hid] at hc'eq
    rw [← hc'eq] at hund
    simp at hund
  · rw [if_neg hid] at hc'eq
    subst hc'eq
    exact hid (honly c hc (by simpa using hund) hkey)

theorem C8_undo_restores_event_witness :
    (⟨⟨19787, 1380⟩, ⟨19787, 1380⟩, "dryOff", "Dry-Off", ⟨"cow", 5, "Bella"⟩⟩ : MilestoneEvent)
      ∉ filterActive
        [⟨⟨19787, 1380⟩, ⟨19787, 1380⟩, "dryOff", "Dry-Off", ⟨"cow", 5, "Bella"⟩⟩]
        [⟨42, "cow", 5, "dryOff", ⟨19787, 10⟩, false⟩] ∧
    (⟨⟨19787, 1380⟩, ⟨19787, 1380⟩, "dryOff", "Dry-Off", ⟨"cow", 5, "Bella"⟩⟩ : MilestoneEvent)
      ∈ filterActive
        [⟨⟨19787, 1380⟩, ⟨19787, 1380⟩, "dryOff", "Dry-Off", ⟨"cow", 5, "Bella"⟩⟩]
        (undoConfirmation [⟨42, "cow", 5, "dryOff", ⟨19787, 10⟩, false⟩] 42) :=
  ⟨by decide,
    C8_undo_restores_event
      [⟨⟨19787, 1380⟩, ⟨19787, 1380⟩, "dryOff", "Dry-Off", ⟨"cow", 5, "Bella"⟩⟩]
      [⟨42, "cow", 5, "dryOff", ⟨19787, 10⟩, false⟩]
      ⟨⟨19787, 1380⟩, ⟨19787, 1380⟩, "dryOff", "Dry-Off", ⟨"cow", 5, "Bella"⟩⟩ 42
      (by decide) (by decide) (by decide)⟩

/-- Claim C9: for every event universe and every anchor date, the
past-due view consists of filtered events whose alert date precedes the
start of the real current day: it is independent of the anchor, contains
only such events, is sorted ascending by alert date, holds at most 100
entries, and is a permutation of all such events whenever they number at
most 100. -/
theorem C9_pastDue_real_now (cows : List Cow) (calves : List Calf)
    (settings : Option Settings) (insems : List Insemination)
    (confs : List ConfirmationRec) (a₁ a₂ : Option DateTime)
    (realNow : DateTime) (pd overdue : List MilestoneEvent)
    (hpd : pd = buildAlertsPastDue cows calves settings insems confs a₁ realNow)
    (hov : overdue = (filterActive (buildAlertsEvents cows calves settings insems realNow) confs).filter
        (fun e => decide (ts e.alertDate < ts (startOfRealDay realNow)))) :
    buildAlertsPastDue cows calves settings insems confs a₂ realNow = pd ∧
    pd.length ≤ 100 ∧
    List.Sorted eventLE pd ∧
    (∀ e ∈ pd, e ∈ overdue ∧ ts e.alertDate < ts (startOfRealDay realNow)) ∧
    (overdue.length ≤ 100 → pd.Perm overdue) := by
  subst hpd
  subst hov
  refine ⟨rfl, ?_, ?_, ?_, ?_⟩
  · simp only [buildAlertsPastDue, List.length_take]
    exact min_le_left _ _
  · simp only [buildAlertsPastDue]
    exact List.Pairwise.sublist (List.take_sublist _ _)
      (List.sorted_insertionSort eventLE _)
  · intro e he
    simp only [buildAlertsPastDue] at he
    have h1 := List.Sublist.mem he (List.take_sublist _ _)
    have h2 : e ∈ (filterActive (buildAlertsEvents cows calves settings insems realNow) confs).filter
        (fun e => decide (ts e.alertDate < ts (startOfRealDay realNow))) := by
      simpa using h1
    refine ⟨h2, ?_⟩
    have := (List.mem_filter.mp h2).2
    simpa using this
  · intro hlen
    simp only [buildAlertsPastDue]
    rw [List.take_of_length_le (by rw [List.length_insertionSort]; exact hlen)]
    exact List.perm_insertionSort _ _

theorem C9_pastDue_real_now_witness :
    buildAlertsPastDue []
        [⟨7, none, some ⟨2024, 1, 1, 0⟩, some "female", some "alive", false⟩]
        none [] [] (some ⟨99999, 0⟩) ⟨20600, 0⟩
      = buildAlertsPastDue []
        [⟨7, none, some ⟨2024, 1, 1, 0⟩, some "female", some "alive", false⟩]
        none [] [] none ⟨20600, 0⟩ ∧
    (buildAlertsPastDue []
        [⟨7, none, some ⟨2024, 1, 1, 0⟩, some "female", some "alive", false⟩]
        none [] [] none ⟨20600, 0⟩).length ≤ 100 := by
  have h := C9_pastDue_real_now []
    [⟨7, none, some ⟨2024, 1, 1, 0⟩, some "female", some "alive", false⟩]
    none [] [] none (some ⟨99999, 0⟩) ⟨20600, 0⟩ _ _ rfl rfl
  exact ⟨h.1, h.2.1⟩

end SweetCow
